import Mathlib

/-!
Verification of the symfonia gateway handshake (`src/gateway/establish_connection.rs`)
and three REST handlers (`vanity_url.rs`, `pins.rs`, `users/me/mod.rs`) against the
natural-language specification.

Shallow embedding: async channel/task effects are made explicit as state fields
(`heartbeatHandlerSpawned`, `forwardedHeartbeats`, `killSent`, ...), the WebSocket
receive stream is a list of raw messages, and machine integers are `Nat`.
Types that come from the external `chorus` crate, and code of the repository that is
not under `src/` (the `HeartbeatHandler` task body, `check_token`, the close-code
sender), are modelled from the spec and marked as such in their doc comments.
-/

namespace Symfonia

/-- Opaque 64-bit identifier (`chorus::types::Snowflake`); ordering is irrelevant
to these claims, so it is modelled as `Nat`. -/
abbrev Snowflake := Nat

/-- Modelled from the spec: `chorus::types::GatewayHeartbeat` (opcode 1) carries the
last received sequence number. The `chorus` crate is not part of this repository. -/
structure GatewayHeartbeat where
  seq : Option Nat
deriving DecidableEq, Repr

/-- Modelled from the spec: `chorus::types::GatewayIdentifyPayload` (opcode 2) carries
the authentication token. Only the token is consulted by `finish_connecting`. -/
structure GatewayIdentifyPayload where
  token : String
deriving DecidableEq, Repr

/-- Modelled from the spec: `chorus::types::GatewayResume` (opcode 6) carries
`{session_id, token, seq}`. -/
structure GatewayResume where
  session_id : String
  token : String
  seq : Option Nat
deriving DecidableEq, Repr

/-- Modelled from the spec: JWT claims as returned by `check_token`
(`src/util/token.rs`, not under `src/`); only the user id is consumed here. -/
structure Claims where
  id : Snowflake
deriving DecidableEq, Repr

/-- A raw WebSocket text frame, abstracted by the results of the three
`serde_json::from_str` attempts performed on it by `finish_connecting`
(lines 136, 167 and 214 of `establish_connection.rs`). A frame may well parse as
several of the shapes; the code's `if let` chain decides the precedence. -/
structure RawMessage where
  asHeartbeat : Option GatewayHeartbeat
  asIdentify : Option GatewayIdentifyPayload
  asResume : Option GatewayResume
deriving DecidableEq, Repr

/-- Modelled from the spec: `chorus::types::GatewayHello` (opcode 10) carries the
heartbeat interval; its `Default` advertises 45000 ms. -/
structure GatewayHello where
  heartbeat_interval : Nat
deriving DecidableEq, Repr

/-- Modelled from the spec: `GatewayHello::default()` has
`heartbeat_interval = 45000` (configuration default `heartbeat_interval_ms`). -/
def GatewayHello.default : GatewayHello := { heartbeat_interval := 45000 }

/-- Server-to-client frames sent during the handshake. -/
inductive ServerFrame where
  | hello (h : GatewayHello)
  | heartbeatAck
deriving DecidableEq, Repr

/-- One live client session (`GatewayClient`). The `Weak<Mutex<GatewayUser>>` parent
back-reference is modelled by the parent user's id: upgrading the weak reference is
modelled by looking the id up in the store. Task handles and the shared connection
carry no data relevant to the claims; `reusedHeartbeatHandler` records whether
`heartbeat_task_handle` reused the lazily pre-spawned handler (line 184-199). -/
structure GatewayClient where
  parent : Snowflake
  session_token : String
  reusedHeartbeatHandler : Bool
deriving DecidableEq, Repr

/-- `GatewayUser`: aggregates all clients of one user id (lines 105-109). -/
structure GatewayUser where
  id : Snowflake
  clients : List GatewayClient
  subscriptions : List Snowflake
deriving DecidableEq, Repr

/-- `GatewayUsersStore`: the process-wide map from user id to the shared
`Arc<Mutex<GatewayUser>>`, modelled as an association list in which an insert
shadows earlier entries (mirroring `HashMap::insert`). -/
abbrev GatewayUsersStore := List (Snowflake × GatewayUser)

/-- `get_or_new_gateway_user` (lines 97-112): return the stored user for `user_id`
if present; otherwise create a fresh user with empty `clients` and `subscriptions`,
insert it, and return it. Returns the user together with the updated store. -/
def get_or_new_gateway_user (user_id : Snowflake) (store : GatewayUsersStore) :
    GatewayUser × GatewayUsersStore :=
  match store.lookup user_id with
  | some user => (user, store)
  | none =>
    let user : GatewayUser := { id := user_id, clients := [], subscriptions := [] }
    (user, (user_id, user) :: store)

/-- Handshake errors surfaced by `establish_connection` (`GatewayError` plus
`UserError::InvalidToken`). -/
inductive HandshakeError where
  | Closed
  | Timeout
  | UnexpectedMessage
  | InvalidToken
deriving DecidableEq, Repr

/-- `NewConnection`: the `{user, client}` pair returned on a successful identify. -/
structure NewConnection where
  user : GatewayUser
  client : GatewayClient
deriving DecidableEq, Repr

/-- Result of the awaiting-identity loop. `resume_connection`
(`src/gateway/resume_connection.rs`) is not under `src/`, so the resume branch is
recorded as a delegation carrying the parsed payload (line 216). -/
inductive HandshakeOutcome where
  | ok (nc : NewConnection)
  | err (e : HandshakeError)
  | resumeDelegated (r : GatewayResume)
deriving DecidableEq, Repr

/-- The mutable context threaded through `finish_connecting`:
`heartbeatHandlerSpawned` is `heartbeat_handler_handle.is_some()`,
`heartbeatSpawnCount` counts `tokio::spawn`s of a `HeartbeatHandler` made in the
heartbeat branch, `forwardedHeartbeats` is the sequence of heartbeats pushed into
the `message_send` broadcast channel (the handler's only input stream),
`killSent` records a send on `kill_send`, `clientsCreated` counts constructed
`GatewayClient` values, and `sent` is the log of frames written by
`establish_connection` itself to the connection's write half. -/
structure HandshakeState where
  heartbeatHandlerSpawned : Bool
  heartbeatSpawnCount : Nat
  forwardedHeartbeats : List GatewayHeartbeat
  killSent : Bool
  clientsCreated : Nat
  store : GatewayUsersStore
  sent : List ServerFrame
deriving DecidableEq, Repr

/-- Whether one loop iteration continues (heartbeat branch) or returns. -/
inductive StepResult where
  | continueLoop (st : HandshakeState)
  | done (st : HandshakeState) (out : HandshakeOutcome)
deriving DecidableEq, Repr

/-- The heartbeat branch (lines 136-166): if no handler is spawned yet, spawn it
(exactly this once) — the triggering heartbeat itself is dropped; otherwise forward
the heartbeat through the `message_send` broadcast channel. -/
def handle_heartbeat (st : HandshakeState) (hb : GatewayHeartbeat) : HandshakeState :=
  if st.heartbeatHandlerSpawned then
    { st with forwardedHeartbeats := st.forwardedHeartbeats ++ [hb] }
  else
    { st with heartbeatHandlerSpawned := true,
              heartbeatSpawnCount := st.heartbeatSpawnCount + 1 }

/-- The identify branch (lines 167-213). `check_token` is passed in abstractly
(the spec treats JWT verification as a function signature only): `none` means
verification failed. On failure: broadcast kill, return `InvalidToken`. On success:
get-or-create the user, build the client with a weak parent reference (reusing the
pre-spawned heartbeat handler when present), push the client onto the user's
`clients` (the store's shared `Arc` observes the push, modelled by writing the
updated user back under its id), and return the `NewConnection`. -/
def handle_identify (check_token : String → Option Claims) (st : HandshakeState)
    (identify : GatewayIdentifyPayload) : HandshakeState × HandshakeOutcome :=
  match check_token identify.token with
  | none => ({ st with killSent := true }, .err .InvalidToken)
  | some claims =>
    let p := get_or_new_gateway_user claims.id st.store
    let gateway_user := p.1
    let gateway_client : GatewayClient :=
      { parent := gateway_user.id,
        session_token := identify.token,
        reusedHeartbeatHandler := st.heartbeatHandlerSpawned }
    let gateway_user' := { gateway_user with clients := gateway_user.clients ++ [gateway_client] }
    ({ st with store := (claims.id, gateway_user') :: p.2,
               clientsCreated := st.clientsCreated + 1 },
     .ok { user := gateway_user', client := gateway_client })

/-- One iteration of the awaiting-identity loop body (lines 136-220): try the three
payload shapes in the order Heartbeat, Identify, Resume; a frame matching none
returns `UnexpectedMessage`. -/
def handshakeStep (check_token : String → Option Claims) (st : HandshakeState)
    (m : RawMessage) : StepResult :=
  match m.asHeartbeat with
  | some heartbeat => .continueLoop (handle_heartbeat st heartbeat)
  | none =>
    match m.asIdentify with
    | some identify =>
      let r := handle_identify check_token st identify
      .done r.1 r.2
    | none =>
      match m.asResume with
      | some resume => .done st (.resumeDelegated resume)
      | none => .done st (.err .UnexpectedMessage)

/-- `finish_connecting` (lines 114-222) over the stream of received raw messages.
`receiver.next()` returning `None` (stream end) returns `Timeout` (line 132). -/
def finish_connecting (check_token : String → Option Claims) (st : HandshakeState) :
    List RawMessage → HandshakeState × HandshakeOutcome
  | [] => (st, .err .Timeout)
  | m :: rest =>
    match handshakeStep check_token st m with
    | .continueLoop st' => finish_connecting check_token st' rest
    | .done st' out => (st', out)

/-- The state at entry to `finish_connecting`: no handler spawned
(`heartbeat_handler_handle = None`, line 61), empty channels, and the Hello frame
already written (lines 44-47) — the only frame `establish_connection` itself sends. -/
def initial_handshake_state (store : GatewayUsersStore) : HandshakeState :=
  { heartbeatHandlerSpawned := false,
    heartbeatSpawnCount := 0,
    forwardedHeartbeats := [],
    killSent := false,
    clientsCreated := 0,
    store := store,
    sent := [ServerFrame.hello GatewayHello.default] }

/-- `establish_connection` (lines 33-93) after a successful WebSocket upgrade:
send Hello, then run the awaiting-identity loop on the received messages. -/
def establish_connection (check_token : String → Option Claims)
    (store : GatewayUsersStore) (msgs : List RawMessage) :
    HandshakeState × HandshakeOutcome :=
  finish_connecting check_token (initial_handshake_state store) msgs

/-- The 30-second handshake deadline (line 71). -/
def handshake_timeout_secs : Nat := 30

/-- The timed handshake: `tokio::select!` (lines 65-90) races a single
`sleep(30 s)` future — created once, never reset — against `finish_connecting`
reading timed frames (arrival time in seconds, nondecreasing). `closedAt` is the
instant the peer closes the read stream, if it ever does; at stream end
`finish_connecting` itself returns `Timeout` (line 132). A frame arriving strictly
before the deadline is processed at its arrival time; otherwise the sleep arm wins
at the deadline. Returns the completion time and the outcome. -/
def finish_connecting_timed (check_token : String → Option Claims)
    (st : HandshakeState) (deadline : Nat) :
    List (Nat × RawMessage) → Option Nat → Nat × HandshakeOutcome
  | [], none => (deadline, .err .Timeout)
  | [], some tclose =>
    if tclose < deadline then (tclose, .err .Timeout) else (deadline, .err .Timeout)
  | (t, m) :: rest, closedAt =>
    if t < deadline then
      match handshakeStep check_token st m with
      | .continueLoop st' => finish_connecting_timed check_token st' deadline rest closedAt
      | .done _ out => (t, out)
    else (deadline, .err .Timeout)

/-- `establish_connection` with the 30-second race made explicit. -/
def establish_connection_timed (check_token : String → Option Claims)
    (store : GatewayUsersStore) (frames : List (Nat × RawMessage))
    (closedAt : Option Nat) : Nat × HandshakeOutcome :=
  finish_connecting_timed check_token (initial_handshake_state store)
    handshake_timeout_secs frames closedAt

/-- Modelled from the spec: the `HeartbeatHandler` task body
(`src/gateway/heartbeat.rs`, not under `src/`) sends one `HeartbeatAck` frame over
the shared connection for every heartbeat received on its broadcast channel. -/
def heartbeat_handler_acks (st : HandshakeState) : List ServerFrame :=
  st.forwardedHeartbeats.map (fun _ => ServerFrame.heartbeatAck)

/-- All server-to-client frames of a handshake: what `establish_connection` wrote,
followed by the handler's acks (acks can only follow a received heartbeat, which
the connection can only deliver after the upgrade, hence after Hello was written). -/
def server_messages (st : HandshakeState) : List ServerFrame :=
  st.sent ++ heartbeat_handler_acks st

/-- Recognizes a Hello frame. -/
def ServerFrame.isHello : ServerFrame → Bool
  | .hello _ => true
  | .heartbeatAck => false

/-- The heartbeats contained in a list of raw frames, in arrival order (what the
claim calls the received `GatewayHeartbeat` frames). -/
def receivedHeartbeats (msgs : List RawMessage) : List GatewayHeartbeat :=
  msgs.filterMap (fun m => m.asHeartbeat)

/-- Modelled from the spec: the close code sent for each handshake error
(section 7: Timeout 4009, InvalidToken 4004, UnexpectedMessage 4002; `Closed` is an
orderly shutdown with no error close code). The code that writes the close frame is
not under `src/`. -/
def close_code_of : HandshakeError → Option Nat
  | .Closed => none
  | .Timeout => some 4009
  | .UnexpectedMessage => some 4002
  | .InvalidToken => some 4004

/-! REST handler models (`src/api/routes/...`). The database entity methods
(`Guild::get_by_id`, `Invite::get_by_guild_vanity`, `Message::*`, `User::get_by_id`)
live under `src/database/entities/` but only `audit_log.rs` is in `src/`; they are
plain store lookups, modelled as fields of an abstract database value. Errors the
claims do not concern are folded into the successful lookups being total. -/

/-- Modelled from the spec: `chorus` guild feature flags; only `AliasableNames` is
consulted by `get_vanity`, a second flag keeps the type honest. -/
inductive GuildFeature where
  | AliasableNames
  | InvitesDisabled
deriving DecidableEq, Repr

/-- A guild row, restricted to the fields `get_vanity` reads. -/
structure Guild where
  id : Snowflake
  features : List GuildFeature
deriving DecidableEq, Repr

/-- An invite row, restricted to the fields `get_vanity` reads. -/
structure Invite where
  code : String
  uses : Option Nat
deriving DecidableEq, Repr

/-- `chorus::types::GuildVanityInviteResponse`. -/
structure GuildVanityInviteResponse where
  code : String
  uses : Option Nat
deriving DecidableEq, Repr

/-- Error values returned by the modelled REST handlers. -/
inductive ApiError where
  | InvalidGuild
  | MemberNotFound
  | InvalidMessage
  | MaxPinsReached
  | InvalidUser
deriving DecidableEq, Repr

/-- Abstract database as seen by `get_vanity`: `Guild::get_by_id`,
`Guild::has_member` and `Invite::get_by_guild_vanity` as pure lookups. -/
structure VanityDb where
  getGuild : Snowflake → Option Guild
  hasMember : Snowflake → Snowflake → Bool
  getGuildVanity : Snowflake → Option Invite

/-- `get_vanity` (`vanity_url.rs` lines 25-54): fetch the guild (404-style
`InvalidGuild` if absent), require membership, then — only when the guild's
features do NOT contain `AliasableNames` — return an existing vanity invite with
status 200; in every other case fall through to an empty code with status 404.
Returns the response body paired with the HTTP status. -/
def get_vanity (db : VanityDb) (claims : Claims) (guild_id : Snowflake) :
    Except ApiError (GuildVanityInviteResponse × Nat) :=
  match db.getGuild guild_id with
  | none => .error .InvalidGuild
  | some guild =>
    if !(db.hasMember guild.id claims.id) then
      .error .MemberNotFound
    else if !(guild.features.contains .AliasableNames) then
      match db.getGuildVanity guild.id with
      | some invite => .ok ({ code := invite.code, uses := invite.uses }, 200)
      | none => .ok ({ code := "", uses := none }, 404)
    else
      .ok ({ code := "", uses := none }, 404)

/-- A message row, restricted to the fields `add_pinned_message` touches. -/
structure Message where
  id : Snowflake
  channel_id : Snowflake
  guild_id : Option Snowflake
  pinned : Bool
deriving DecidableEq, Repr

/-- Abstract database as seen by the pins handlers: the message table. -/
structure PinsDb where
  messages : List Message
deriving DecidableEq, Repr

/-- `Message::get_by_id(db, channel_id, message_id)`: the message with that id in
that channel, if any. -/
def Message.get_by_id (db : PinsDb) (channel_id message_id : Snowflake) :
    Option Message :=
  db.messages.find? (fun m => m.channel_id == channel_id && m.id == message_id)

/-- `Message::count_pinned(db, channel_id)`: how many messages of the channel are
pinned (the SQL `COUNT` is non-negative, so `Nat` is faithful; the source compares
it as `i32` against `max_pins as i32`). -/
def Message.count_pinned (db : PinsDb) (channel_id : Snowflake) : Nat :=
  (db.messages.filter (fun m => m.channel_id == channel_id && m.pinned)).length

/-- `Message::set_pinned(db, v)` for the message keyed by (channel, id): updates
the row's `pinned` column. -/
def Message.set_pinned (db : PinsDb) (channel_id message_id : Snowflake) (v : Bool) :
    PinsDb :=
  { messages := db.messages.map (fun m =>
      if m.channel_id == channel_id && m.id == message_id then
        { m with pinned := v }
      else m) }

/-- The configured pin limit (`config.limits.channel.max_pins`). -/
structure PinsConfig where
  max_pins : Nat
deriving DecidableEq, Repr

/-- `add_pinned_message` (`pins.rs` lines 16-39): fetch the message
(`InvalidMessage` if absent), count the channel's pinned messages, return
`MaxPinsReached` when the count has reached the limit — before `set_pinned` is
called — and otherwise pin the message and answer 204. Returns the (possibly
updated) database with the handler result. -/
def add_pinned_message (db : PinsDb) (config : PinsConfig)
    (channel_id message_id : Snowflake) : PinsDb × Except ApiError Nat :=
  match Message.get_by_id db channel_id message_id with
  | none => (db, .error .InvalidMessage)
  | some _message =>
    let pinned_count := Message.count_pinned db channel_id
    if config.max_pins ≤ pinned_count then
      (db, .error .MaxPinsReached)
    else
      (Message.set_pinned db channel_id message_id true, .ok 204)

/-- A user row; the fields beyond the id are irrelevant to the claim. -/
structure User where
  id : Snowflake
  username : String
deriving DecidableEq, Repr

/-- Abstract database as seen by `get_data`: `User::get_by_id` is fallible
(`sqlx` may fail, modelled by `Except Unit`) and partial (the user may not exist). -/
structure UserDb where
  get_by_id : Snowflake → Except Unit (Option User)

/-- What a `poem` handler can observably do: return a body, return an error
response, or panic (an `unwrap` on `Err`/`None`). -/
inductive HandlerOutcome (α : Type) where
  | ok (a : α)
  | err (e : ApiError)
  | panic
deriving DecidableEq, Repr

/-- `get_data` (`users/me/mod.rs` lines 24-35): `User::get_by_id(db, claims.id)`
followed by `.unwrap()` on the database result and `.ok_or(InvalidUser).unwrap()`
on the option — both failure branches panic instead of propagating an `Err`. -/
def get_data (db : UserDb) (claims : Claims) : HandlerOutcome User :=
  match db.get_by_id claims.id with
  | .error _ => .panic
  | .ok none => .panic
  | .ok (some user) => .ok user

/-! Concrete fixtures used to instantiate the theorems. -/

/-- A token verifier accepting exactly the token "VALID", for user id 7. -/
def check_token_stub : String → Option Claims :=
  fun token => if token == "VALID" then some { id := 7 } else none

/-- A frame parsing only as a heartbeat. -/
def heartbeat_msg : RawMessage :=
  { asHeartbeat := some { seq := none }, asIdentify := none, asResume := none }

/-- A frame parsing only as an identify payload. -/
def identify_msg (token : String) : RawMessage :=
  { asHeartbeat := none, asIdentify := some { token := token }, asResume := none }

/-- A frame parsing only as a resume payload. -/
def resume_msg : RawMessage :=
  { asHeartbeat := none, asIdentify := none,
    asResume := some { session_id := "abc", token := "VALID", seq := some 5 } }

/-- A frame parsing as an identify and as a resume, but not as a heartbeat. -/
def identify_resume_msg : RawMessage :=
  { asHeartbeat := none,
    asIdentify := some { token := "VALID" },
    asResume := some { session_id := "abc", token := "VALID", seq := some 3 } }

/-- An ambiguous frame parsing as all three payload shapes. -/
def ambiguous_msg : RawMessage :=
  { asHeartbeat := some { seq := some 3 },
    asIdentify := some { token := "VALID" },
    asResume := some { session_id := "abc", token := "VALID", seq := some 3 } }

/-- A frame parsing as none of the three payload shapes. -/
def garbage_msg : RawMessage :=
  { asHeartbeat := none, asIdentify := none, asResume := none }

/-! Theorems settling the claims. -/

/-- A frame that parses as an identify but not as a heartbeat makes the loop
return the result of the identify branch. -/
theorem finish_connecting_identify_eq (check_token : String → Option Claims)
    (st : HandshakeState) (m : RawMessage) (identify : GatewayIdentifyPayload)
    (rest : List RawMessage)
    (hhb : m.asHeartbeat = none) (hid : m.asIdentify = some identify) :
    finish_connecting check_token st (m :: rest) =
      handle_identify check_token st identify := by
  simp [finish_connecting, handshakeStep, hhb, hid]

/-- C1: during the awaiting-identity loop of `establish_connection`, every received
frame is parsed against exactly the three payload shapes in the precedence order
Heartbeat, then Identify, then Resume — the heartbeat branch is taken whenever the
frame parses as a heartbeat, regardless of the other two parses, and the identify
branch whenever it parses as an identify but not a heartbeat, regardless of the
resume parse — and a frame parsing as none of the three makes the loop return the
`UnexpectedMessage` error. -/
theorem c1_parse_precedence (check_token : String → Option Claims)
    (st : HandshakeState) (m : RawMessage) (rest : List RawMessage) :
    (∀ hb, m.asHeartbeat = some hb →
      finish_connecting check_token st (m :: rest) =
        finish_connecting check_token (handle_heartbeat st hb) rest) ∧
    (∀ identify, m.asHeartbeat = none → m.asIdentify = some identify →
      finish_connecting check_token st (m :: rest) =
        handle_identify check_token st identify) ∧
    (∀ resume, m.asHeartbeat = none → m.asIdentify = none →
      m.asResume = some resume →
      finish_connecting check_token st (m :: rest) = (st, .resumeDelegated resume)) ∧
    (m.asHeartbeat = none → m.asIdentify = none → m.asResume = none →
      finish_connecting check_token st (m :: rest) =
        (st, .err .UnexpectedMessage)) := by
  refine ⟨?_, ?_, ?_, ?_⟩
  · intro hb hhb
    simp [finish_connecting, handshakeStep, hhb]
  · intro identify hhb hid
    simp [finish_connecting, handshakeStep, hhb, hid]
  · intro resume hhb hid hres
    simp [finish_connecting, handshakeStep, hhb, hid, hres]
  · intro hhb hid hres
    simp [finish_connecting, handshakeStep, hhb, hid, hres]

/-- Witness for C1: a frame that parses as all three shapes is handled as a
heartbeat, one that parses as identify and resume is handled as an identify, a
resume-only frame is delegated, and a garbage frame yields `UnexpectedMessage`. -/
theorem c1_parse_precedence_witness :
    (finish_connecting check_token_stub (initial_handshake_state [])
        [ambiguous_msg] =
      finish_connecting check_token_stub
        (handle_heartbeat (initial_handshake_state []) { seq := some 3 }) []) ∧
    (finish_connecting check_token_stub (initial_handshake_state [])
        [identify_resume_msg] =
      handle_identify check_token_stub (initial_handshake_state [])
        { token := "VALID" }) ∧
    (finish_connecting check_token_stub (initial_handshake_state [])
        [resume_msg] =
      (initial_handshake_state [],
        .resumeDelegated { session_id := "abc", token := "VALID", seq := some 5 })) ∧
    (finish_connecting check_token_stub (initial_handshake_state [])
        [garbage_msg] =
      (initial_handshake_state [], .err .UnexpectedMessage)) :=
  ⟨(c1_parse_precedence check_token_stub (initial_handshake_state [])
      ambiguous_msg []).1 { seq := some 3 } rfl,
   (c1_parse_precedence check_token_stub (initial_handshake_state [])
      identify_resume_msg []).2.1 { token := "VALID" } rfl rfl,
   (c1_parse_precedence check_token_stub (initial_handshake_state [])
      resume_msg []).2.2.1 { session_id := "abc", token := "VALID", seq := some 5 }
      rfl rfl rfl,
   (c1_parse_precedence check_token_stub (initial_handshake_state [])
      garbage_msg []).2.2.2 rfl rfl rfl⟩

/-- Counterexample to C2: a connection whose only frame is a garbage frame at
second 5 receives no Identify and no Resume, yet `establish_connection` returns
`UnexpectedMessage` at second 5 — not the `Timeout` error once 30 seconds have
elapsed. -/
theorem c2_counterexample :
    garbage_msg.asIdentify = none ∧ garbage_msg.asResume = none ∧
    establish_connection_timed check_token_stub [] [(5, garbage_msg)] none =
      (5, .err .UnexpectedMessage) ∧
    (5, HandshakeOutcome.err .UnexpectedMessage) ≠
      (handshake_timeout_secs, HandshakeOutcome.err .Timeout) := by
  decide

/-- C2 (amended): for every connection on which every frame received before the
30-second deadline parses as a heartbeat and whose read stream is not closed, the
handshake returns the `Timeout` error exactly when 30 seconds have elapsed; the
single sleep future makes the deadline a hard bound that intermediate heartbeats
do not reset. -/
theorem c2_hard_deadline (check_token : String → Option Claims)
    (store : GatewayUsersStore) (frames : List (Nat × RawMessage))
    (h : ∀ p ∈ frames, p.1 < handshake_timeout_secs →
      p.2.asHeartbeat.isSome = true) :
    establish_connection_timed check_token store frames none =
      (handshake_timeout_secs, .err .Timeout) := by
  unfold establish_connection_timed
  generalize initial_handshake_state store = st
  induction frames generalizing st with
  | nil => rfl
  | cons p rest ih =>
    obtain ⟨t, m⟩ := p
    by_cases ht : t < handshake_timeout_secs
    · obtain ⟨hb, hhb⟩ := Option.isSome_iff_exists.mp
        (h (t, m) (List.mem_cons_self _ _) ht)
      have hhb' : m.asHeartbeat = some hb := hhb
      have step : handshakeStep check_token st m =
          .continueLoop (handle_heartbeat st hb) := by
        simp [handshakeStep, hhb']
      simp only [finish_connecting_timed, ht, if_true, step]
      exact ih (fun p hp hlt => h p (List.mem_cons_of_mem _ hp) hlt) _
    · simp [finish_connecting_timed, ht]

/-- Witness for C2 (amended): heartbeats at seconds 1 and 29 do not postpone the
deadline — the handshake still times out exactly at second 30. -/
theorem c2_hard_deadline_witness :
    establish_connection_timed check_token_stub []
        [(1, heartbeat_msg), (29, heartbeat_msg)] none =
      (handshake_timeout_secs, .err .Timeout) :=
  c2_hard_deadline check_token_stub [] [(1, heartbeat_msg), (29, heartbeat_msg)]
    (by decide)

/-- Counterexample to C3: the first heartbeat received during the handshake spawns
the `HeartbeatHandler` but is itself never pushed into the `message_send` broadcast
channel — the handler's only input stream — so it is lost and never acknowledged,
contradicting "every heartbeat is acknowledged, with no received heartbeat lost". -/
theorem c3_counterexample :
    receivedHeartbeats [heartbeat_msg] = [{ seq := none }] ∧
    (finish_connecting check_token_stub (initial_handshake_state [])
        [heartbeat_msg]).1.heartbeatSpawnCount = 1 ∧
    (finish_connecting check_token_stub (initial_handshake_state [])
        [heartbeat_msg]).1.forwardedHeartbeats = [] ∧
    heartbeat_handler_acks
      (finish_connecting check_token_stub (initial_handshake_state [])
        [heartbeat_msg]).1 = [] ∧
    ([] : List GatewayHeartbeat) ≠ receivedHeartbeats [heartbeat_msg] := by
  decide

/-- Steps taken after the heartbeat handler is spawned forward every further
heartbeat into the broadcast channel and never spawn a second handler. -/
theorem finish_connecting_spawned_forwards (check_token : String → Option Claims)
    (msgs : List RawMessage) :
    ∀ st : HandshakeState, st.heartbeatHandlerSpawned = true →
    (∀ m ∈ msgs, m.asHeartbeat.isSome = true) →
    (finish_connecting check_token st msgs).1.forwardedHeartbeats =
      st.forwardedHeartbeats ++ receivedHeartbeats msgs ∧
    (finish_connecting check_token st msgs).1.heartbeatSpawnCount =
      st.heartbeatSpawnCount := by
  induction msgs with
  | nil => intro st _ _; simp [finish_connecting, receivedHeartbeats]
  | cons m rest ih =>
    intro st hsp hall
    obtain ⟨hb, hhb⟩ := Option.isSome_iff_exists.mp
      (hall m (List.mem_cons_self _ _))
    have hrest : ∀ m' ∈ rest, m'.asHeartbeat.isSome = true :=
      fun m' hm => hall m' (List.mem_cons_of_mem _ hm)
    have step : handshakeStep check_token st m =
        .continueLoop { st with
          forwardedHeartbeats := st.forwardedHeartbeats ++ [hb] } := by
      simp [handshakeStep, hhb, handle_heartbeat, hsp]
    obtain ⟨ihf, ihc⟩ := ih { st with
      forwardedHeartbeats := st.forwardedHeartbeats ++ [hb] } hsp hrest
    constructor
    · simp only [finish_connecting, step, ihf]
      simp [receivedHeartbeats, hhb]
    · simp only [finish_connecting, step, ihc]

/-- C3 (amended): for every nonempty run of heartbeat frames received during the
handshake before Identify or Resume, the first heartbeat causes the
`HeartbeatHandler` to be spawned exactly once (never twice), but that first
heartbeat is dropped rather than delivered; every subsequent heartbeat is
forwarded to the handler through the broadcast channel — and, per the
spec-modelled handler, acknowledged — so exactly the tail of the received
heartbeats is delivered. -/
theorem c3_first_heartbeat_spawns_tail_forwarded
    (check_token : String → Option Claims) (store : GatewayUsersStore)
    (msgs : List RawMessage) (hne : msgs ≠ [])
    (hall : ∀ m ∈ msgs, m.asHeartbeat.isSome = true) :
    (finish_connecting check_token (initial_handshake_state store)
        msgs).1.heartbeatSpawnCount = 1 ∧
    (finish_connecting check_token (initial_handshake_state store)
        msgs).1.forwardedHeartbeats = (receivedHeartbeats msgs).tail ∧
    (heartbeat_handler_acks
        (finish_connecting check_token (initial_handshake_state store)
          msgs).1).length = (receivedHeartbeats msgs).length - 1 := by
  cases msgs with
  | nil => exact absurd rfl hne
  | cons m rest =>
    obtain ⟨hb, hhb⟩ := Option.isSome_iff_exists.mp
      (hall m (List.mem_cons_self _ _))
    have hrest : ∀ m' ∈ rest, m'.asHeartbeat.isSome = true :=
      fun m' hm => hall m' (List.mem_cons_of_mem _ hm)
    have step : handshakeStep check_token (initial_handshake_state store) m =
        .continueLoop { initial_handshake_state store with
          heartbeatHandlerSpawned := true, heartbeatSpawnCount := 1 } := by
      simp [handshakeStep, hhb, handle_heartbeat, initial_handshake_state]
    obtain ⟨hf, hc⟩ := finish_connecting_spawned_forwards check_token rest
      { initial_handshake_state store with
        heartbeatHandlerSpawned := true, heartbeatSpawnCount := 1 } rfl hrest
    have hrecv : receivedHeartbeats (m :: rest) = hb :: receivedHeartbeats rest := by
      simp [receivedHeartbeats, hhb]
    refine ⟨?_, ?_, ?_⟩
    · simp only [finish_connecting, step, hc]
    · simp only [finish_connecting, step, hf, hrecv]
      simp [initial_handshake_state]
    · simp only [finish_connecting, step, heartbeat_handler_acks,
        List.length_map, hf, hrecv]
      simp [initial_handshake_state]

/-- Witness for C3 (amended): three heartbeats — one spawn, the first heartbeat
dropped, the remaining two forwarded and acknowledged. -/
theorem c3_first_heartbeat_spawns_tail_forwarded_witness :
    (finish_connecting check_token_stub (initial_handshake_state [])
        [heartbeat_msg, heartbeat_msg, heartbeat_msg]).1.heartbeatSpawnCount = 1 ∧
    (finish_connecting check_token_stub (initial_handshake_state [])
        [heartbeat_msg, heartbeat_msg, heartbeat_msg]).1.forwardedHeartbeats =
      (receivedHeartbeats [heartbeat_msg, heartbeat_msg, heartbeat_msg]).tail ∧
    (heartbeat_handler_acks
        (finish_connecting check_token_stub (initial_handshake_state [])
          [heartbeat_msg, heartbeat_msg, heartbeat_msg]).1).length =
      (receivedHeartbeats [heartbeat_msg, heartbeat_msg, heartbeat_msg]).length
        - 1 :=
  c3_first_heartbeat_spawns_tail_forwarded check_token_stub []
    [heartbeat_msg, heartbeat_msg, heartbeat_msg] (by decide) (by decide)

/-- The parent back-reference invariant: every client in a user's `clients` list
points back to that user. -/
def parent_inv (u : GatewayUser) : Prop :=
  ∀ c ∈ u.clients, c.parent = u.id

/-- C4: when an Identify frame with a verifying token is received, the loop returns
a `NewConnection` whose client was pushed onto the user's clients list, whose
client's weak `parent` reference resolves to that same user (id equality, the
store mapping that id to the user), with the user registered in the
`GatewayUsersStore` under the token's user id, and the parent back-reference
invariant holds for the returned user. -/
theorem c4_identify_success (check_token : String → Option Claims)
    (st : HandshakeState) (m : RawMessage) (identify : GatewayIdentifyPayload)
    (claims : Claims) (rest : List RawMessage)
    (hhb : m.asHeartbeat = none) (hid : m.asIdentify = some identify)
    (hck : check_token identify.token = some claims)
    (hwf : ∀ u, st.store.lookup claims.id = some u →
      u.id = claims.id ∧ parent_inv u) :
    ∃ st' user client,
      finish_connecting check_token st (m :: rest) =
        (st', .ok { user := user, client := client }) ∧
      client ∈ user.clients ∧
      client.parent = user.id ∧
      user.id = claims.id ∧
      st'.store.lookup claims.id = some user ∧
      parent_inv user := by
  have run : finish_connecting check_token st (m :: rest) =
      handle_identify check_token st identify :=
    finish_connecting_identify_eq check_token st m identify rest hhb hid
  unfold handle_identify at run
  rw [hck] at run
  cases hlook : st.store.lookup claims.id with
  | none =>
    simp only [get_or_new_gateway_user, hlook] at run
    refine ⟨_, _, _, run, ?_, rfl, rfl, ?_, ?_⟩
    · simp
    · simp [List.lookup]
    · intro c hc
      simp at hc
      simp [hc]
  | some u =>
    obtain ⟨hu_id, hu_inv⟩ := hwf u hlook
    simp only [get_or_new_gateway_user, hlook] at run
    refine ⟨_, _, _, run, ?_, ?_, ?_, ?_, ?_⟩
    · simp
    · rfl
    · exact hu_id
    · simp [List.lookup]
    · intro c hc
      rcases List.mem_append.mp hc with hc | hc
      · exact hu_inv c hc
      · simp at hc
        simp [hc]

/-- Witness for C4: starting from the state left by a pre-identify heartbeat over
an empty store, an identify with the token "VALID" (user id 7) yields a
`NewConnection` satisfying all the listed facts. -/
theorem c4_identify_success_witness :
    ∃ st' user client,
      finish_connecting check_token_stub
          (handle_heartbeat (initial_handshake_state []) { seq := none })
          [identify_msg "VALID"] =
        (st', .ok { user := user, client := client }) ∧
      client ∈ user.clients ∧
      client.parent = user.id ∧
      user.id = 7 ∧
      st'.store.lookup 7 = some user ∧
      parent_inv user :=
  c4_identify_success check_token_stub
    (handle_heartbeat (initial_handshake_state []) { seq := none })
    (identify_msg "VALID") { token := "VALID" } { id := 7 } []
    rfl rfl (by decide)
    (fun u hu => by
      simp [handle_heartbeat, initial_handshake_state, List.lookup] at hu)

/-- C5: when an Identify frame whose token fails verification is received, the
loop broadcasts the kill signal and returns the `InvalidToken` error — whose
close code is 4004 — leaving the `GatewayUsersStore` unchanged and constructing
no `GatewayClient`. -/
theorem c5_invalid_token (check_token : String → Option Claims)
    (st : HandshakeState) (m : RawMessage) (identify : GatewayIdentifyPayload)
    (rest : List RawMessage)
    (hhb : m.asHeartbeat = none) (hid : m.asIdentify = some identify)
    (hck : check_token identify.token = none) :
    finish_connecting check_token st (m :: rest) =
      ({ st with killSent := true }, .err .InvalidToken) ∧
    (finish_connecting check_token st (m :: rest)).1.killSent = true ∧
    (finish_connecting check_token st (m :: rest)).1.store = st.store ∧
    (finish_connecting check_token st (m :: rest)).1.clientsCreated =
      st.clientsCreated ∧
    close_code_of .InvalidToken = some 4004 := by
  have run : finish_connecting check_token st (m :: rest) =
      handle_identify check_token st identify :=
    finish_connecting_identify_eq check_token st m identify rest hhb hid
  unfold handle_identify at run
  rw [hck] at run
  exact ⟨run, by rw [run], by rw [run], by rw [run], rfl⟩

/-- Witness for C5: an identify with the token "BAD" fails verification; the kill
flag is set, the error is `InvalidToken`, and the state (in particular the store
and the client count) is otherwise untouched. -/
theorem c5_invalid_token_witness :
    finish_connecting check_token_stub (initial_handshake_state [])
        [identify_msg "BAD"] =
      ({ initial_handshake_state [] with killSent := true },
        .err .InvalidToken) ∧
    (finish_connecting check_token_stub (initial_handshake_state [])
        [identify_msg "BAD"]).1.killSent = true ∧
    (finish_connecting check_token_stub (initial_handshake_state [])
        [identify_msg "BAD"]).1.store = (initial_handshake_state []).store ∧
    (finish_connecting check_token_stub (initial_handshake_state [])
        [identify_msg "BAD"]).1.clientsCreated =
      (initial_handshake_state []).clientsCreated ∧
    close_code_of .InvalidToken = some 4004 :=
  c5_invalid_token check_token_stub (initial_handshake_state [])
    (identify_msg "BAD") { token := "BAD" } [] rfl rfl (by decide)

/-- C6: `get_or_new_gateway_user` is idempotent — a stored id yields the stored
user with the store unchanged, a fresh id inserts exactly one fresh user with
empty `clients` and `subscriptions`, and a second call with the same id returns
the same user and leaves the store of the first call unchanged. -/
theorem c6_get_or_new_idempotent (user_id : Snowflake)
    (store : GatewayUsersStore) :
    (∀ u, store.lookup user_id = some u →
      get_or_new_gateway_user user_id store = (u, store)) ∧
    (store.lookup user_id = none →
      get_or_new_gateway_user user_id store =
        ({ id := user_id, clients := [], subscriptions := [] },
         (user_id, { id := user_id, clients := [], subscriptions := [] })
           :: store)) ∧
    get_or_new_gateway_user user_id
        (get_or_new_gateway_user user_id store).2 =
      ((get_or_new_gateway_user user_id store).1,
       (get_or_new_gateway_user user_id store).2) := by
  refine ⟨?_, ?_, ?_⟩
  · intro u hu
    simp [get_or_new_gateway_user, hu]
  · intro hu
    simp [get_or_new_gateway_user, hu]
  · cases hu : store.lookup user_id with
    | some u => simp [get_or_new_gateway_user, hu]
    | none => simp [get_or_new_gateway_user, hu, List.lookup]

/-- Fixture: a stored gateway user with id 7. -/
def user7 : GatewayUser := { id := 7, clients := [], subscriptions := [] }

/-- Witness for C6: looking up the present id 7 returns the stored user and the
unchanged store; a first call for the absent id 5 inserts one fresh user; and the
second call after the first is the identity. -/
theorem c6_get_or_new_idempotent_witness :
    get_or_new_gateway_user 7 [(7, user7)] = (user7, [(7, user7)]) ∧
    get_or_new_gateway_user 5 [] =
      ({ id := 5, clients := [], subscriptions := [] },
       [(5, { id := 5, clients := [], subscriptions := [] })]) ∧
    get_or_new_gateway_user 5 (get_or_new_gateway_user 5 []).2 =
      ((get_or_new_gateway_user 5 []).1, (get_or_new_gateway_user 5 []).2) :=
  ⟨(c6_get_or_new_idempotent 7 [(7, user7)]).1 user7 (by decide),
   (c6_get_or_new_idempotent 5 []).2.1 (by decide),
   (c6_get_or_new_idempotent 5 []).2.2⟩

/-- The awaiting-identity loop never writes to the connection itself: the frames
sent by `establish_connection` are exactly those present when the loop starts. -/
theorem finish_connecting_sent_invariant (check_token : String → Option Claims)
    (msgs : List RawMessage) :
    ∀ st : HandshakeState, (finish_connecting check_token st msgs).1.sent =
      st.sent := by
  induction msgs with
  | nil => intro st; rfl
  | cons m rest ih =>
    intro st
    cases hhb : m.asHeartbeat with
    | some hb =>
      have step : handshakeStep check_token st m =
          .continueLoop (handle_heartbeat st hb) := by
        simp [handshakeStep, hhb]
      simp only [finish_connecting, step, ih]
      unfold handle_heartbeat
      by_cases hsp : st.heartbeatHandlerSpawned <;> simp [hsp]
    | none =>
      cases hid : m.asIdentify with
      | some identify =>
        have step : handshakeStep check_token st m =
            .done (handle_identify check_token st identify).1
              (handle_identify check_token st identify).2 := by
          simp [handshakeStep, hhb, hid]
        simp only [finish_connecting, step]
        unfold handle_identify
        cases check_token identify.token <;> simp
      | none =>
        cases hres : m.asResume with
        | some r => simp [finish_connecting, handshakeStep, hhb, hid, hres]
        | none => simp [finish_connecting, handshakeStep, hhb, hid, hres]

/-- C7: after the WebSocket upgrade, for every possible stream of client frames,
the first server-to-client message of the handshake is the single Hello frame,
exactly one Hello is ever sent, and the advertised heartbeat interval is the
default 45000 ms. -/
theorem c7_hello_first (check_token : String → Option Claims)
    (store : GatewayUsersStore) (msgs : List RawMessage) :
    (server_messages (establish_connection check_token store msgs).1).head? =
      some (ServerFrame.hello GatewayHello.default) ∧
    (server_messages (establish_connection check_token store msgs).1).countP
      ServerFrame.isHello = 1 ∧
    GatewayHello.default.heartbeat_interval = 45000 := by
  have hsent : (establish_connection check_token store msgs).1.sent =
      [ServerFrame.hello GatewayHello.default] :=
    finish_connecting_sent_invariant check_token msgs
      (initial_handshake_state store)
  have hacks : ∀ f ∈ heartbeat_handler_acks
      (establish_connection check_token store msgs).1,
      ServerFrame.isHello f = false := by
    intro f hf
    obtain ⟨hb, _, rfl⟩ := List.mem_map.mp hf
    rfl
  refine ⟨?_, ?_, rfl⟩
  · simp [server_messages, hsent]
  · rw [server_messages, List.countP_append, hsent]
    have : (heartbeat_handler_acks
        (establish_connection check_token store msgs).1).countP
        ServerFrame.isHello = 0 := by
      rw [List.countP_eq_zero]
      intro f hf
      simp [hacks f hf]
    simp [this, List.countP_cons, ServerFrame.isHello]

/-- C8: `get_vanity` returns an existing vanity invite code with status 200 only
when the guild's features do NOT contain `AliasableNames`; for every guild whose
features contain `AliasableNames` it returns the empty code with status 404, even
when a vanity invite exists. -/
theorem c8_vanity_aliasable_hides (db : VanityDb) (claims : Claims)
    (guild_id : Snowflake) (guild : Guild)
    (hg : db.getGuild guild_id = some guild)
    (hm : db.hasMember guild.id claims.id = true) :
    (guild.features.contains .AliasableNames = true →
      get_vanity db claims guild_id = .ok ({ code := "", uses := none }, 404)) ∧
    (∀ resp, get_vanity db claims guild_id = .ok (resp, 200) →
      guild.features.contains .AliasableNames = false ∧
      ∃ invite, db.getGuildVanity guild.id = some invite ∧
        resp = { code := invite.code, uses := invite.uses }) := by
  constructor
  · intro hc
    have hmem : GuildFeature.AliasableNames ∈ guild.features := by
      simpa using hc
    simp [get_vanity, hg, hm, hmem]
  · intro resp hr
    by_cases hmem : GuildFeature.AliasableNames ∈ guild.features
    · simp [get_vanity, hg, hm, hmem] at hr
    · refine ⟨by simpa using hmem, ?_⟩
      cases hv : db.getGuildVanity guild.id with
      | none => simp [get_vanity, hg, hm, hmem, hv] at hr
      | some invite =>
        simp [get_vanity, hg, hm, hmem, hv] at hr
        exact ⟨invite, rfl, by simp [← hr]⟩

/-- Fixture: a database whose guild 1 has the `AliasableNames` feature, whose
membership check passes, and which holds a vanity invite for every guild. -/
def aliasable_db : VanityDb :=
  { getGuild := fun gid =>
      if gid == 1 then some { id := 1, features := [.AliasableNames] } else none,
    hasMember := fun _ _ => true,
    getGuildVanity := fun _ => some { code := "vanity", uses := some 3 } }

/-- Witness for C8: guild 1 has `AliasableNames` and a vanity invite exists, yet
`get_vanity` answers the empty code with status 404. -/
theorem c8_vanity_aliasable_hides_witness :
    get_vanity aliasable_db { id := 9 } 1 =
      .ok ({ code := "", uses := none }, 404) ∧
    aliasable_db.getGuildVanity 1 = some { code := "vanity", uses := some 3 } :=
  ⟨(c8_vanity_aliasable_hides aliasable_db { id := 9 } 1
      { id := 1, features := [.AliasableNames] } (by decide) (by decide)).1
      (by decide),
   by decide⟩

/-- C9: `add_pinned_message` is atomic on the pin-limit error — when the channel's
pinned count has reached the configured `max_pins`, it returns `MaxPinsReached`
without calling `set_pinned`, so the database and in particular the target
message's pinned state are unchanged. -/
theorem c9_pin_limit_atomic (db : PinsDb) (config : PinsConfig)
    (channel_id message_id : Snowflake) (message : Message)
    (hmsg : Message.get_by_id db channel_id message_id = some message)
    (hcount : config.max_pins ≤ Message.count_pinned db channel_id) :
    add_pinned_message db config channel_id message_id =
      (db, .error .MaxPinsReached) ∧
    (add_pinned_message db config channel_id message_id).1 = db ∧
    Message.get_by_id (add_pinned_message db config channel_id message_id).1
        channel_id message_id = some message := by
  have run : add_pinned_message db config channel_id message_id =
      (db, .error .MaxPinsReached) := by
    simp [add_pinned_message, hmsg, hcount]
  exact ⟨run, by rw [run], by rw [run, hmsg]⟩

/-- Fixture: a channel (id 10) with one pinned message (id 1) and one unpinned
message (id 2). -/
def pins_db : PinsDb :=
  { messages :=
      [ { id := 1, channel_id := 10, guild_id := none, pinned := true },
        { id := 2, channel_id := 10, guild_id := none, pinned := false } ] }

/-- Witness for C9: with `max_pins = 1` already reached, pinning message 2 of
channel 10 fails with `MaxPinsReached` and message 2 stays unpinned. -/
theorem c9_pin_limit_atomic_witness :
    add_pinned_message pins_db { max_pins := 1 } 10 2 =
      (pins_db, .error .MaxPinsReached) ∧
    (add_pinned_message pins_db { max_pins := 1 } 10 2).1 = pins_db ∧
    Message.get_by_id (add_pinned_message pins_db { max_pins := 1 } 10 2).1 10 2 =
      some { id := 2, channel_id := 10, guild_id := none, pinned := false } :=
  c9_pin_limit_atomic pins_db { max_pins := 1 } 10 2
    { id := 2, channel_id := 10, guild_id := none, pinned := false }
    (by decide) (by decide)

/-- C10: `get_data` on the `/users/@me` route panics (via `unwrap`) whenever the
database lookup fails or no user exists for the authenticated claims' id, and it
never propagates either branch as an `Err` response. -/
theorem c10_get_data_panics (db : UserDb) (claims : Claims) :
    (∀ e, db.get_by_id claims.id = .error e → get_data db claims = .panic) ∧
    (db.get_by_id claims.id = .ok none → get_data db claims = .panic) ∧
    (∀ e, get_data db claims ≠ .err e) := by
  refine ⟨?_, ?_, ?_⟩
  · intro e he
    simp [get_data, he]
  · intro he
    simp [get_data, he]
  · intro e
    cases h : db.get_by_id claims.id with
    | error u => simp [get_data, h]
    | ok o => cases o <;> simp [get_data, h]

/-- Fixture: a database whose user lookup always fails. -/
def failing_user_db : UserDb := { get_by_id := fun _ => .error () }

/-- Fixture: a database holding no users. -/
def empty_user_db : UserDb := { get_by_id := fun _ => .ok none }

/-- Witness for C10: a failing lookup and a missing user both make `get_data`
panic, and neither is reported as an `Err`. -/
theorem c10_get_data_panics_witness :
    get_data failing_user_db { id := 3 } = .panic ∧
    get_data empty_user_db { id := 3 } = .panic ∧
    get_data failing_user_db { id := 3 } ≠ .err .InvalidUser :=
  ⟨(c10_get_data_panics failing_user_db { id := 3 }).1 () rfl,
   (c10_get_data_panics empty_user_db { id := 3 }).2.1 rfl,
   (c10_get_data_panics failing_user_db { id := 3 }).2.2 .InvalidUser⟩

end Symfonia
